import Mathlib

/-!
Shallow embedding of `src/mosquitto_calls.rs` from the `mosquitto_plugin`
repository: the outbound publish marshaler (`publish_broadcast`,
`publish_to_client`), the growable retained-message query
(`get_retained`), record reclamation (`reclaim_into_box`) and conversion
(`convert_to_rust_type`).

Modelling conventions:
- Rust byte buffers are `List Nat` (each entry one byte, < 256 for real
  inputs; this bound is irrelevant to the properties proved).
- Raw C pointers that may be null are `Option` values: `none` models a
  null pointer, `some bs` models a valid pointer whose pointee bytes are
  `bs`.
- A Rust `panic!` / `expect` failure, and undefined behaviour that the
  Rust code would hit by dereferencing an invalid pointer, are both
  modelled by the `panicked` constructor of `RustResult`, distinct from
  an `Err` return.
- The foreign host (the mosquitto broker) is a parameter: a function
  from the marshalled call data to the host status code (for publish)
  or from the buffer capacity to the host reply (for the retained
  query).  The embedding records the calls made to the host and the
  heap bookkeeping (allocations / frees of the slot boxes and of the
  payload buffer), so that ownership claims become statements about the
  recorded effects.
-/

/-- Outcome of a piece of Rust code: a normal `Ok`, a normal `Err`, or a
panic / undefined behaviour (which never produces a value). -/
inductive RustResult (ε : Type) (α : Type) where
  | ok : α → RustResult ε α
  | err : ε → RustResult ε α
  | panicked : String → RustResult ε α
deriving DecidableEq, Repr

/-- The crate's `Success` unit struct (`pub struct Success;`). -/
inductive Success where
  | mk : Success
deriving DecidableEq, Repr

/-- The crate's `Error` enum, as used by `mosquitto_calls.rs`:
`Error::NoMem`, `Error::Inval` and `Error::Unknown` are unit variants
(the source writes `Err(Error::Unknown)` with no payload, so the variant
carries no data).  Only the variants used by the marshaler are modelled;
the enum's declaration itself lives outside `src/`. -/
inductive Error where
  | NoMem : Error
  | Inval : Error
  | Unknown : Error
deriving DecidableEq, Repr

/-- Modelled from the spec: the crate's `QOS` enumeration ("quality of
service level (one of a fixed small enumeration)"); its declaration is
not under `src/`.  `to_i32` is the integer the wire format uses. -/
inductive QOS where
  | AtMostOnce : QOS
  | AtLeastOnce : QOS
  | ExactlyOnce : QOS
deriving DecidableEq, Repr

/-- Modelled from the spec: `QOS::to_i32`, the integer wire value of a
qos level. -/
def QOS.to_i32 : QOS → Int
  | .AtMostOnce => 0
  | .AtLeastOnce => 1
  | .ExactlyOnce => 2

/-- The argument record of one call to the host's
`mosquitto_broker_publish`: client id pointer (`none` = null = all
clients), the null-terminated topic bytes, the payload length, the bytes
of the heap payload buffer handed over, the qos integer and the retain
flag. -/
structure HostPublishCall where
  client_id : Option (List Nat)
  topic : List Nat
  payloadlen : Nat
  payload : List Nat
  qos : Int
  retain : Bool
deriving DecidableEq, Repr

/-- Result of running one of the publish marshaler functions: the Rust
return value (or panic), the list of host publish calls performed, and
whether the marshaler freed the heap payload buffer it allocated before
returning (the source contains no `free` call, so this records what the
code actually does). -/
structure PublishOutcome where
  result : RustResult Error Success
  calls : List HostPublishCall
  payload_freed : Bool
deriving DecidableEq, Repr

/-- The `malloc` + `copy_to` pair of the marshaler: a fresh heap buffer
of `len` bytes receives the first `len` bytes read from the source
pointer. -/
def malloc_copy (src : List Nat) (len : Nat) : List Nat :=
  src.take len

/-- Embedding of `publish_broadcast` (src/mosquitto_calls.rs:15-59).
`CString::new(topic).expect("no cstring for u")` panics when the topic
contains an interior null byte; otherwise a heap payload buffer of
`payload.len()` bytes is filled by `copy_to` and handed to the host
together with a null client id, the null-terminated topic, the qos
integer and the retain flag.  The host status is matched
`0 / 1 / 3 / _` to `Ok(Success) / NoMem / Inval / Unknown`.  No path
frees the payload buffer. -/
def publish_broadcast (host : HostPublishCall → Int) (topic : List Nat)
    (payload : List Nat) (qos : QOS) (retain : Bool) : PublishOutcome :=
  if topic.contains 0 then
    { result := .panicked "no cstring for u", calls := [], payload_freed := false }
  else
    let payload_len := payload.length
    let c_payload := malloc_copy payload payload_len
    let call : HostPublishCall :=
      { client_id := none, topic := topic ++ [0], payloadlen := payload_len,
        payload := c_payload, qos := qos.to_i32, retain := retain }
    let res := host call
    { result :=
        if res = 0 then .ok Success.mk
        else if res = 1 then .err Error.NoMem
        else if res = 3 then .err Error.Inval
        else .err Error.Unknown,
      calls := [call], payload_freed := false }

/-- Embedding of `publish_to_client` (src/mosquitto_calls.rs:63-102).
Identical to `publish_broadcast` except that the client id is marshalled
first (so an interior null byte in either the client id or the topic
panics before the host call) and is passed to the host instead of the
null pointer. -/
def publish_to_client (host : HostPublishCall → Int) (client_id : List Nat)
    (topic : List Nat) (payload : List Nat) (qos : QOS) (retain : Bool) :
    PublishOutcome :=
  if client_id.contains 0 then
    { result := .panicked "no cstring for u", calls := [], payload_freed := false }
  else if topic.contains 0 then
    { result := .panicked "no cstring for u", calls := [], payload_freed := false }
  else
    let payload_len := payload.length
    let c_payload := malloc_copy payload payload_len
    let call : HostPublishCall :=
      { client_id := some (client_id ++ [0]), topic := topic ++ [0],
        payloadlen := payload_len, payload := c_payload, qos := qos.to_i32,
        retain := retain }
    let res := host call
    { result :=
        if res = 0 then .ok Success.mk
        else if res = 1 then .err Error.NoMem
        else if res = 3 then .err Error.Inval
        else .err Error.Unknown,
      calls := [call], payload_freed := false }

/-- The C-layout `mosquitto_message` struct the host fills in for query
results.  The `topic` pointer is `none` for null (the zero-initialized
placeholder) or `some tb` for a valid pointer to the null-terminated
byte string `tb` (the bytes before the terminator, so `tb` is what
`CStr::from_ptr(..).to_bytes()` yields).  The `payload` pointer is
`none` for null or `some bs` where `bs` are the bytes readable at the
pointer; `payloadlen` is the length field of the struct. -/
structure RawMessage where
  mid : Int
  topic : Option (List Nat)
  payload : Option (List Nat)
  payloadlen : Nat
  qos : Int
  retain : Bool
deriving DecidableEq, Repr

/-- The zero-initialized placeholder record the core allocates for each
slot (src/mosquitto_calls.rs:117-124): null topic and payload pointers,
zero lengths. -/
def zeroRawMessage : RawMessage :=
  { mid := 0, topic := none, payload := none, payloadlen := 0, qos := 0,
    retain := false }

/-- The crate's safe `MosquittoMessage` domain type as used by
`convert_to_rust_type`: the topic is the UTF-8 byte content of the
`&str`, the payload the byte view, plus the qos integer and retain
flag.  (The struct's declaration lives outside `src/`; the fields are
exactly those assigned at src/mosquitto_calls.rs:186-191.) -/
structure MosquittoMessage where
  topic : List Nat
  payload : List Nat
  qos : Int
  retain : Bool
deriving DecidableEq, Repr

/-- Whether a byte is a UTF-8 continuation byte (`10xxxxxx`). -/
def isUtf8Cont (b : Nat) : Bool :=
  128 ≤ b && b ≤ 191

/-- Validity of a byte sequence as UTF-8, exactly the condition under
which Rust's `str::from_utf8` (and hence `CStr::to_str`) succeeds:
ASCII, 2-byte sequences `C2..DF`, 3-byte sequences excluding overlongs
(`E0 A0..BF`) and surrogates (`ED 80..9F`), 4-byte sequences excluding
overlongs (`F0 90..BF`) and values above U+10FFFF (`F4 80..8F`). -/
def validUtf8 : List Nat → Bool
  | [] => true
  | b :: rest =>
    if b ≤ 127 then validUtf8 rest
    else if 194 ≤ b && b ≤ 223 then
      match rest with
      | c1 :: r => isUtf8Cont c1 && validUtf8 r
      | [] => false
    else if b = 224 then
      match rest with
      | c1 :: c2 :: r => (160 ≤ c1 && c1 ≤ 191) && isUtf8Cont c2 && validUtf8 r
      | _ => false
    else if 225 ≤ b && b ≤ 236 then
      match rest with
      | c1 :: c2 :: r => isUtf8Cont c1 && isUtf8Cont c2 && validUtf8 r
      | _ => false
    else if b = 237 then
      match rest with
      | c1 :: c2 :: r => (128 ≤ c1 && c1 ≤ 159) && isUtf8Cont c2 && validUtf8 r
      | _ => false
    else if 238 ≤ b && b ≤ 239 then
      match rest with
      | c1 :: c2 :: r => isUtf8Cont c1 && isUtf8Cont c2 && validUtf8 r
      | _ => false
    else if b = 240 then
      match rest with
      | c1 :: c2 :: c3 :: r =>
        (144 ≤ c1 && c1 ≤ 191) && isUtf8Cont c2 && isUtf8Cont c3 && validUtf8 r
      | _ => false
    else if 241 ≤ b && b ≤ 243 then
      match rest with
      | c1 :: c2 :: c3 :: r =>
        isUtf8Cont c1 && isUtf8Cont c2 && isUtf8Cont c3 && validUtf8 r
      | _ => false
    else if b = 244 then
      match rest with
      | c1 :: c2 :: c3 :: r =>
        (128 ≤ c1 && c1 ≤ 143) && isUtf8Cont c2 && isUtf8Cont c3 && validUtf8 r
      | _ => false
    else false

/-- The byte view `slice::from_raw_parts(msg.payload, msg.payloadlen)`
takes of a record's payload (src/mosquitto_calls.rs:183-184): `none`
models undefined behaviour (a null pointer with nonzero length, or a
length exceeding the bytes readable at the pointer); otherwise `some`
of the first `payloadlen` bytes. -/
def payload_view (m : RawMessage) : Option (List Nat) :=
  match m.payload with
  | none => if m.payloadlen = 0 then some [] else none
  | some bs => if m.payloadlen ≤ bs.length then some (bs.take m.payloadlen) else none

/-- Embedding of `convert_to_rust_type` (src/mosquitto_calls.rs:173-195).
For each record in order: `CStr::from_ptr(msg.topic)` (undefined
behaviour on a null topic pointer, modelled as a panic), `.to_str()`
which fails with the decoding error string when the topic bytes are not
valid UTF-8, then the payload byte view; the loop stops at the first
failure. -/
def convert_to_rust_type : List RawMessage → RustResult String (List MosquittoMessage)
  | [] => .ok []
  | m :: rest =>
    match m.topic with
    | none => .panicked "CStr::from_ptr on null topic pointer"
    | some tb =>
      if validUtf8 tb then
        match payload_view m with
        | none => .panicked "slice::from_raw_parts on invalid payload"
        | some pv =>
          match convert_to_rust_type rest with
          | .ok tail =>
            .ok ({ topic := tb, payload := pv, qos := m.qos,
                   retain := m.retain } :: tail)
          | .err e => .err e
          | .panicked s => .panicked s
      else .err "get_retained failed to create topic &str from CStr pointer"

/-- One step per slot of the reclamation loop of `reclaim_into_box`
(src/mosquitto_calls.rs:162-170): `remaining` slots are left to visit
starting at index `i` and `buf_size = i + remaining` at the top call;
a null slot pointer returns the error immediately (slots from `i` on
are then never freed), otherwise `Box::from_raw` frees the slot (the
`freed` counter increments) and the record is kept when `i` is below
`messages_found`.  Reading past the end of the pointer vector is an
index-out-of-bounds panic. -/
def reclaim_go (buffer : List (Option RawMessage)) (messages_found : Nat) :
    Nat → Nat → List RawMessage → Nat → RustResult String (List RawMessage) × Nat
  | 0, _, acc, freed => (.ok acc, freed)
  | remaining + 1, i, acc, freed =>
    match buffer[i]? with
    | none => (.panicked "index out of bounds", freed)
    | some none => (.err "Dereferencing a null pointer is a bad idea", freed)
    | some (some msg) =>
      reclaim_go buffer messages_found remaining (i + 1)
        (if i < messages_found then acc ++ [msg] else acc) (freed + 1)

/-- Embedding of `reclaim_into_box` (src/mosquitto_calls.rs:158-172):
walks the `buf_size` slot pointers from index 0, freeing each slot box
and keeping the records with index below `messages_found` in index
order.  Returns the Rust result together with the number of slot boxes
freed. -/
def reclaim_into_box (buffer : List (Option RawMessage)) (buf_size : Nat)
    (messages_found : Nat) : RustResult String (List RawMessage) × Nat :=
  reclaim_go buffer messages_found buf_size 0 [] 0

/-- Modelled from the spec: the bindgen status-code constants
`crate::mosq_err_t_*` used by `get_retained`; the generated bindings are
not under `src/`.  The exact integer values are irrelevant to every
property proved (only their distinctness matters); the standard
mosquitto values are used for the four standard codes and a fresh value
for the fork's `MOSQ_ERR_BUFFER_FULL`. -/
def mosq_err_t_MOSQ_ERR_SUCCESS : Int := 0

/-- Modelled from the spec: the bindgen constant for `MOSQ_ERR_NOMEM`. -/
def mosq_err_t_MOSQ_ERR_NOMEM : Int := 1

/-- Modelled from the spec: the bindgen constant for `MOSQ_ERR_PROTOCOL`. -/
def mosq_err_t_MOSQ_ERR_PROTOCOL : Int := 2

/-- Modelled from the spec: the bindgen constant for `MOSQ_ERR_INVAL`. -/
def mosq_err_t_MOSQ_ERR_INVAL : Int := 3

/-- Modelled from the spec: the bindgen constant for the fork's
`MOSQ_ERR_BUFFER_FULL` retry signal. -/
def mosq_err_t_MOSQ_ERR_BUFFER_FULL : Int := 32

/-- Modelled from the spec: the host's reply to one
`mosquitto_get_retained` call — the status code, the out-parameter
found count, and the records the host wrote through the slot pointers
(in buffer index order; at most the first `capacity` of them land in
the buffer). -/
structure HostReply where
  rc : Int
  found : Nat
  written : List RawMessage
deriving DecidableEq, Repr

/-- Modelled from the spec: the contents of the `buf_size` slot structs
after the host call — the host overwrote the first
`min written.length buf_size` slots with its records, the rest still
hold the zero-initialized placeholder.  Every slot pointer itself stays
the non-null pointer `Box::into_raw` produced. -/
def slots_after (buf_size : Nat) (written : List RawMessage) :
    List (Option RawMessage) :=
  (written.take buf_size ++
    List.replicate (buf_size - written.length) zeroRawMessage).map some

/-- Outcome of a `get_retained` call: the Rust result, the total number
of slot boxes allocated over all attempts, and the total number of slot
boxes freed (by `reclaim_into_box`). -/
structure GetRetainedOutcome where
  result : RustResult String (List MosquittoMessage)
  allocated : Nat
  freed : Nat
deriving DecidableEq, Repr

/-- Embedding of `get_retained` (src/mosquitto_calls.rs:104-157),
unfolded over a `fuel` bound on the number of attempts since the Rust
recursion is unbounded (`none` = the recursion did not finish within
`fuel` attempts).  Each attempt: reject a topic with an interior null
byte; allocate `buf_size` placeholder slots; call the host; on
`MOSQ_ERR_SUCCESS` reclaim all slots and convert the kept records; on
`MOSQ_ERR_BUFFER_FULL` recurse with doubled capacity WITHOUT reclaiming
(exactly as the source does at line 138); on any other status build the
error name (`INVAL` / `NOMEM` / `PROTOCOL` / unknown), reclaim, and
return the (doubly wrapped, as in the source) error string.
`allocated` and `freed` accumulate across attempts. -/
def get_retained_go (host : Nat → HostReply) :
    Nat → List Nat → Nat → Nat → Nat → Option GetRetainedOutcome
  | 0, _, _, _, _ => none
  | fuel + 1, topic, buf_size, allocated, freed =>
    if topic.contains 0 then
      some { result := .err "failed to make cstring for topic probably it contains a 0 byte",
             allocated := allocated, freed := freed }
    else
      let allocated := allocated + buf_size
      let reply := host buf_size
      let buffer := slots_after buf_size reply.written
      if reply.rc = mosq_err_t_MOSQ_ERR_SUCCESS then
        let rec_out := reclaim_into_box buffer buf_size reply.found
        let freed := freed + rec_out.2
        match rec_out.1 with
        | .ok messages =>
          some { result := convert_to_rust_type messages,
                 allocated := allocated, freed := freed }
        | .err e => some { result := .err e, allocated := allocated, freed := freed }
        | .panicked s =>
          some { result := .panicked s, allocated := allocated, freed := freed }
      else if reply.rc = mosq_err_t_MOSQ_ERR_BUFFER_FULL then
        get_retained_go host fuel topic (buf_size * 2) allocated freed
      else
        let name :=
          if reply.rc = mosq_err_t_MOSQ_ERR_INVAL then "MOSQ_ERR_INVAL"
          else if reply.rc = mosq_err_t_MOSQ_ERR_NOMEM then "MOSQ_ERR_NOMEM"
          else if reply.rc = mosq_err_t_MOSQ_ERR_PROTOCOL then "MOSQ_ERR_PROTOCOL"
          else "UNKNOWN ERROR"
        let msg := "mosquitto_get_retained failed. return code from mosquitto: " ++ name
        let rec_out := reclaim_into_box buffer buf_size reply.found
        let freed := freed + rec_out.2
        match rec_out.1 with
        | .ok _ =>
          some { result := .err ("mosquitto_get_retained failed. return code from mosquitto: " ++ msg),
                 allocated := allocated, freed := freed }
        | .err e =>
          some { result := .err ("failed to reclaim memory (potentially big problem): " ++ e ++ " while handling this error: " ++ msg),
                 allocated := allocated, freed := freed }
        | .panicked s =>
          some { result := .panicked s, allocated := allocated, freed := freed }

/-- Embedding of the public `get_retained` entry point: run the attempt
loop with zeroed allocation counters. -/
def get_retained (host : Nat → HostReply) (fuel : Nat) (topic : List Nat)
    (buf_size : Nat) : Option GetRetainedOutcome :=
  get_retained_go host fuel topic buf_size 0 0

/-- Decidable convertibility of one raw record: the topic pointer is
non-null, its bytes decode as UTF-8, and the payload view is defined. -/
def record_convertible (m : RawMessage) : Bool :=
  (match m.topic with
   | none => false
   | some tb => validUtf8 tb) && (payload_view m).isSome

/-- Test double record with a one-byte ASCII topic and empty payload,
used by the growable-query host double. -/
def goodRec : RawMessage :=
  { mid := 0, topic := some [97], payload := some [], payloadlen := 0,
    qos := 0, retain := false }

/-- The domain message `goodRec` converts to. -/
def goodMsg : MosquittoMessage :=
  { topic := [97], payload := [], qos := 0, retain := false }

/-- Host double for the growable-query property: report
`MOSQ_ERR_BUFFER_FULL` whenever the capacity is below `N`, and success
with `found_count = N` (writing `N` well-formed records) whenever the
capacity is at least `N`. -/
def hostC4 (N : Nat) : Nat → HostReply := fun cap =>
  if cap < N then
    { rc := mosq_err_t_MOSQ_ERR_BUFFER_FULL, found := 0, written := [] }
  else
    { rc := mosq_err_t_MOSQ_ERR_SUCCESS, found := N,
      written := List.replicate N goodRec }

/-- Host double that reports `MOSQ_ERR_BUFFER_FULL` below capacity 20
and an empty success at capacity 20, exposing the slot leak of the
retry path. -/
def hostLeak : Nat → HostReply := fun cap =>
  if cap < 20 then
    { rc := mosq_err_t_MOSQ_ERR_BUFFER_FULL, found := 0, written := [] }
  else
    { rc := mosq_err_t_MOSQ_ERR_SUCCESS, found := 0, written := [] }

/-- Host double that always succeeds with found count `f`, writing the
given records. -/
def hostOnce (f : Nat) (written : List RawMessage) : Nat → HostReply :=
  fun _ => { rc := mosq_err_t_MOSQ_ERR_SUCCESS, found := f, written := written }

/-- The spec's round-trip test double record: topic `"a/b"`, payload
`[1,2,3]`, qos 1, retain true. -/
def sampleRec : RawMessage :=
  { mid := 0, topic := some [97, 47, 98], payload := some [1, 2, 3],
    payloadlen := 3, qos := 1, retain := true }

/-- Helper: on a buffer of non-null slot pointers, the reclamation loop
never fails, frees one box per visited slot, and keeps exactly the
visited records whose index is below `found`, in index order. -/
theorem reclaim_go_map_some (contents : List RawMessage) (found : Nat) :
    ∀ (remaining i : Nat) (acc : List RawMessage) (freed : Nat),
      i + remaining ≤ contents.length →
      reclaim_go (contents.map some) found remaining i acc freed =
        (.ok (acc ++ ((contents.drop i).take remaining).take (found - i)),
          freed + remaining) := by
  intro remaining
  induction remaining with
  | zero =>
    intro i acc freed h
    simp [reclaim_go]
  | succ n ih =>
    intro i acc freed h
    have hi : i < contents.length := by omega
    rw [reclaim_go, List.getElem?_map, List.getElem?_eq_getElem hi]
    simp only [Option.map_some']
    rw [List.drop_eq_getElem_cons hi, List.take_succ_cons]
    by_cases hif : i < found
    · have hfi : found - i = (found - (i + 1)) + 1 := by omega
      rw [if_pos hif, ih (i + 1) (acc ++ [contents[i]]) (freed + 1) (by omega),
        hfi, List.take_succ_cons]
      simp [List.append_assoc]
      omega
    · have hfi : found - i = 0 := by omega
      have hfi1 : found - (i + 1) = 0 := by omega
      rw [if_neg hif, ih (i + 1) acc (freed + 1) (by omega), hfi, hfi1]
      simp
      omega

/-- Helper: `reclaim_into_box` on a fully populated non-null buffer of
at least `buf_size` slots returns the first `min buf_size found`
records and frees exactly `buf_size` slot boxes. -/
theorem reclaim_into_box_map_some (contents : List RawMessage)
    (buf_size found : Nat) (h : buf_size ≤ contents.length) :
    reclaim_into_box (contents.map some) buf_size found =
      (.ok ((contents.take buf_size).take found), buf_size) := by
  rw [reclaim_into_box, reclaim_go_map_some contents found buf_size 0 [] 0 (by omega)]
  simp

/-- Helper: converting a list of all-convertible records succeeds and
yields one domain message per record. -/
theorem convert_all_convertible (l : List RawMessage)
    (h : ∀ m ∈ l, record_convertible m = true) :
    ∃ msgs, convert_to_rust_type l = .ok msgs ∧ msgs.length = l.length := by
  induction l with
  | nil => exact ⟨[], rfl, rfl⟩
  | cons m rest ih =>
    obtain ⟨msgs, hconv, hlen⟩ := ih (fun x hx => h x (List.mem_cons_of_mem m hx))
    have hm := h m (List.mem_cons_self m rest)
    unfold record_convertible at hm
    rw [Bool.and_eq_true] at hm
    obtain ⟨htb, hpv⟩ := hm
    match hmt : m.topic with
    | none => rw [hmt] at htb; simp at htb
    | some tb =>
      rw [hmt] at htb
      have htb2 : validUtf8 tb = true := htb
      match hpvv : payload_view m with
      | none => rw [hpvv] at hpv; simp at hpv
      | some pv =>
        refine ⟨{ topic := tb, payload := pv, qos := m.qos, retain := m.retain } :: msgs, ?_, ?_⟩
        · rw [convert_to_rust_type, hmt]
          simp only [htb2, if_true, hpvv, hconv]
        · simp [hlen]

/-- Helper: the records of the growable-query host double all convert. -/
theorem convert_replicate_goodRec (n : Nat) :
    convert_to_rust_type (List.replicate n goodRec) = .ok (List.replicate n goodMsg) := by
  induction n with
  | zero => rfl
  | succ k ih =>
    rw [List.replicate_succ, List.replicate_succ]
    rw [show convert_to_rust_type (goodRec :: List.replicate k goodRec) =
      (match convert_to_rust_type (List.replicate k goodRec) with
       | .ok tail => .ok (goodMsg :: tail)
       | .err e => .err e
       | .panicked s => .panicked s) from rfl]
    rw [ih]

/-- Helper: the one-byte topic `[97]` has no interior null byte. -/
theorem topic97_no0 : (([97] : List Nat).contains 0) = false := by decide

/-- Helper: one attempt of `get_retained` against the growth host double
with sufficient capacity succeeds with the host's `N` records, freeing
the `cap` slot boxes of this attempt. -/
theorem hostC4_success_attempt (N cap a f fuel : Nat) (h : N ≤ cap) :
    get_retained_go (hostC4 N) (fuel + 1) [97] cap a f =
      some { result := .ok (List.replicate N goodMsg), allocated := a + cap,
             freed := f + cap } := by
  have hrep : hostC4 N cap =
      { rc := mosq_err_t_MOSQ_ERR_SUCCESS, found := N,
        written := List.replicate N goodRec } := by
    unfold hostC4
    rw [if_neg (not_lt.mpr h)]
  have hslots : slots_after cap (List.replicate N goodRec) =
      (List.replicate N goodRec ++ List.replicate (cap - N) zeroRawMessage).map some := by
    unfold slots_after
    rw [List.take_replicate, List.length_replicate, min_eq_right h]
  have hlen2 : (List.replicate N goodRec ++ List.replicate (cap - N) zeroRawMessage).length = cap := by
    simp
    omega
  have hreclaim := reclaim_into_box_map_some
    (List.replicate N goodRec ++ List.replicate (cap - N) zeroRawMessage) cap N (le_of_eq hlen2.symm)
  have htake : ((List.replicate N goodRec ++ List.replicate (cap - N) zeroRawMessage).take cap).take N
      = List.replicate N goodRec := by
    rw [List.take_of_length_le (le_of_eq hlen2),
      List.take_append_of_le_length (by simp), List.take_replicate, min_self]
  rw [get_retained_go]
  rw [if_neg (by rw [topic97_no0]; exact Bool.false_ne_true)]
  simp only [hrep, hslots]
  rw [if_pos trivial]
  simp only [hreclaim, htake, convert_replicate_goodRec]

/-- Helper: one attempt of `get_retained` against the growth host double
with insufficient capacity recurses with doubled capacity, freeing
nothing (the slot boxes of this attempt are abandoned). -/
theorem hostC4_full_attempt (N cap a f fuel : Nat) (h : cap < N) :
    get_retained_go (hostC4 N) (fuel + 1) [97] cap a f =
      get_retained_go (hostC4 N) fuel [97] (cap * 2) (a + cap) f := by
  have hrep : hostC4 N cap =
      { rc := mosq_err_t_MOSQ_ERR_BUFFER_FULL, found := 0, written := [] } := by
    unfold hostC4
    rw [if_pos h]
  rw [get_retained_go]
  rw [if_neg (by rw [topic97_no0]; exact Bool.false_ne_true)]
  simp only [hrep]
  rw [if_neg (by decide), if_pos trivial]

/-- Helper: against the growth host double, starting at any positive
capacity, `r + 1` attempts suffice and `r` attempts do not, where `r`
is the least number of doublings making the capacity reach `N`. -/
theorem get_retained_growth_main (N : Nat) :
    ∀ (r cap a f : Nat), 1 ≤ cap → N ≤ cap * 2 ^ r → (∀ j, j < r → cap * 2 ^ j < N) →
      (∃ a2 f2, get_retained_go (hostC4 N) (r + 1) [97] cap a f =
          some { result := .ok (List.replicate N goodMsg), allocated := a2, freed := f2 })
      ∧ get_retained_go (hostC4 N) r [97] cap a f = none := by
  intro r
  induction r with
  | zero =>
    intro cap a f hcap hle _
    rw [pow_zero, mul_one] at hle
    exact ⟨⟨a + cap, f + cap, hostC4_success_attempt N cap a f 0 hle⟩, rfl⟩
  | succ r ih =>
    intro cap a f hcap hle hmin
    have hlt : cap < N := by
      have := hmin 0 (Nat.succ_pos r)
      simpa using this
    have hle2 : N ≤ cap * 2 * 2 ^ r := by
      calc N ≤ cap * 2 ^ (r + 1) := hle
        _ = cap * 2 * 2 ^ r := by ring
    have hmin2 : ∀ j, j < r → cap * 2 * 2 ^ j < N := by
      intro j hj
      calc cap * 2 * 2 ^ j = cap * 2 ^ (j + 1) := by ring
        _ < N := hmin (j + 1) (by omega)
    obtain ⟨hex, hnone⟩ := ih (cap * 2) (a + cap) f (by omega) hle2 hmin2
    refine ⟨?_, ?_⟩
    · rw [hostC4_full_attempt N cap a f (r + 1) hlt]
      exact hex
    · rw [hostC4_full_attempt N cap a f r hlt]
      exact hnone

/-- Helper: one `get_retained` attempt whose host reports a terminal
error status (neither success nor buffer-full) reclaims the 10 slots
and returns the doubly wrapped error message built from the status
name. -/
theorem get_retained_error_attempt (c : Int) (found : Nat)
    (hc0 : ¬c = mosq_err_t_MOSQ_ERR_SUCCESS)
    (hc32 : ¬c = mosq_err_t_MOSQ_ERR_BUFFER_FULL) :
    get_retained (fun _ => { rc := c, found := found, written := [] }) 1 [116] 10 =
      some { result := .err ("mosquitto_get_retained failed. return code from mosquitto: " ++
               ("mosquitto_get_retained failed. return code from mosquitto: " ++
                 (if c = mosq_err_t_MOSQ_ERR_INVAL then "MOSQ_ERR_INVAL"
                  else if c = mosq_err_t_MOSQ_ERR_NOMEM then "MOSQ_ERR_NOMEM"
                  else if c = mosq_err_t_MOSQ_ERR_PROTOCOL then "MOSQ_ERR_PROTOCOL"
                  else "UNKNOWN ERROR"))),
             allocated := 10, freed := 10 } := by
  have hslots : slots_after 10 ([] : List RawMessage) =
      (List.replicate 10 zeroRawMessage).map some := by
    unfold slots_after
    simp
  have hreclaim := reclaim_into_box_map_some (List.replicate 10 zeroRawMessage) 10 found (by simp)
  rw [get_retained, get_retained_go]
  rw [if_neg (by decide)]
  simp only [hslots]
  rw [if_neg hc0, if_neg hc32]
  simp only [hreclaim]

/-- C1: the claim says the marshaler frees the heap payload buffer when
the host publish call fails.  The code contains no free on any path:
here the host returns status 1 (no memory), the marshaler returns
`Err(NoMem)`, and the payload buffer is not freed — the failure half of
the claim is false of the code (the success half, never freeing on
success, does hold: `payload_freed` is `false` on every path). -/
theorem publish_failure_payload_not_freed :
    (publish_broadcast (fun _ => 1) [116] [1, 2, 3] QOS.AtLeastOnce true).result
        = .err Error.NoMem
    ∧ (publish_broadcast (fun _ => 1) [116] [1, 2, 3] QOS.AtLeastOnce true).payload_freed
        = false
    ∧ (publish_to_client (fun _ => 1) [99] [116] [1, 2, 3] QOS.AtLeastOnce true).result
        = .err Error.NoMem
    ∧ (publish_to_client (fun _ => 1) [99] [116] [1, 2, 3] QOS.AtLeastOnce true).payload_freed
        = false := by
  refine ⟨rfl, rfl, rfl, rfl⟩

/-- C2: the claim says a topic (or client id) with an embedded null
byte makes the publish operation return `InvalidArgument` without
calling the host.  The code instead panics via
`CString::new(..).expect("no cstring for u")`; the host is indeed not
called, but no `InvalidArgument` is returned — the operation crashes. -/
theorem publish_null_byte_panics :
    publish_broadcast (fun _ => 0) [97, 0, 98] [1] QOS.AtMostOnce false =
      { result := .panicked "no cstring for u", calls := [], payload_freed := false }
    ∧ publish_to_client (fun _ => 0) [99, 0] [116] [1] QOS.AtMostOnce false =
      { result := .panicked "no cstring for u", calls := [], payload_freed := false } := by
  refine ⟨rfl, rfl⟩

/-- C3: the claim says every call path reclaims all slots allocated for
an attempt before returning or retrying.  Against a host that reports
buffer-full at capacity 10 and success (with no records) at capacity
20, the code allocates 10 + 20 = 30 slot boxes but frees only the 20 of
the final attempt: the buffer-full path at src/mosquitto_calls.rs:138
retries without reclaiming, leaking all 10 slots of the first
attempt. -/
theorem get_retained_buffer_full_leak :
    get_retained hostLeak 2 [116] 10 =
      some { result := .ok [], allocated := 30, freed := 20 }
    ∧ (30 : Nat) ≠ 20 := by
  refine ⟨by decide, by decide⟩

/-- C7: for every valid topic, the buffer handed to the host by
`publish_broadcast` has length exactly `payload.len()` and is
byte-for-byte the input payload. -/
theorem publish_broadcast_payload_exact (host : HostPublishCall → Int)
    (topic payload : List Nat) (qos : QOS) (retain : Bool)
    (h : topic.contains 0 = false) :
    ∃ call, (publish_broadcast host topic payload qos retain).calls = [call]
      ∧ call.payloadlen = payload.length
      ∧ call.payload = payload := by
  refine ⟨{ client_id := none, topic := topic ++ [0], payloadlen := payload.length,
            payload := malloc_copy payload payload.length, qos := qos.to_i32,
            retain := retain }, ?_, rfl, ?_⟩
  · rw [publish_broadcast, if_neg (by rw [h]; exact Bool.false_ne_true)]
  · rw [malloc_copy, List.take_length]

/-- C7 witness: concrete instance at topic `"t"`, payload `[1,2,3]`. -/
theorem publish_broadcast_payload_exact_witness :
    (([116] : List Nat).contains 0) = false
    ∧ ∃ call, (publish_broadcast (fun _ => 0) [116] [1, 2, 3] QOS.AtMostOnce false).calls = [call]
        ∧ call.payloadlen = ([1, 2, 3] : List Nat).length
        ∧ call.payload = [1, 2, 3] :=
  ⟨rfl, publish_broadcast_payload_exact (fun _ => 0) [116] [1, 2, 3] QOS.AtMostOnce false rfl⟩

/-- C10: when the host over-reports its found count (found_count
strictly greater than the capacity), reclamation keeps exactly
`capacity` records — the first `capacity` in index order — and never
reads a slot at an index at or beyond `capacity`: the result is
determined by the first `buf_size` slots alone. -/
theorem reclaim_overreport_capped (contents : List RawMessage)
    (buf_size found : Nat) (hbuf : buf_size ≤ contents.length)
    (hover : buf_size < found) :
    reclaim_into_box (contents.map some) buf_size found =
      (.ok (contents.take buf_size), buf_size)
    ∧ (contents.take buf_size).length = buf_size := by
  constructor
  · rw [reclaim_into_box_map_some contents buf_size found hbuf,
      List.take_take, min_eq_right (le_of_lt hover)]
  · rw [List.length_take]
    exact min_eq_left hbuf

/-- C10 witness: three populated slots, capacity 2, host claims 5
found: exactly the 2 slots in the buffer are returned. -/
theorem reclaim_overreport_capped_witness :
    (2 ≤ ([goodRec, sampleRec, zeroRawMessage] : List RawMessage).length)
    ∧ (2 < 5)
    ∧ reclaim_into_box ([goodRec, sampleRec, zeroRawMessage].map some) 2 5 =
        (.ok [goodRec, sampleRec], 2)
    ∧ ([goodRec, sampleRec, zeroRawMessage].take 2).length = 2 := by
  refine ⟨by decide, by decide, ?_, ?_⟩
  · exact (reclaim_overreport_capped [goodRec, sampleRec, zeroRawMessage] 2 5
      (by decide) (by decide)).1
  · exact (reclaim_overreport_capped [goodRec, sampleRec, zeroRawMessage] 2 5
      (by decide) (by decide)).2

/-- C4: against a host double reporting buffer-full below capacity `N`
and success with `found_count = N` at capacity at least `N`,
`get_retained` started at capacity 10 terminates with exactly the `N`
host records after `r` retries, where `r` is the least number of
doublings with `10 * 2 ^ r ≥ N` (that is, `⌈log2(N/10)⌉`): `r + 1`
attempts return the `N` messages and `r` attempts are not enough. -/
theorem get_retained_growth_terminates (N r : Nat) (_hN : 1 ≤ N)
    (hup : N ≤ 10 * 2 ^ r) (hmin : ∀ j, j < r → 10 * 2 ^ j < N) :
    (get_retained (hostC4 N) (r + 1) [97] 10).map GetRetainedOutcome.result =
      some (.ok (List.replicate N goodMsg))
    ∧ (List.replicate N goodMsg).length = N
    ∧ get_retained (hostC4 N) r [97] 10 = none := by
  obtain ⟨⟨a2, f2, hgo⟩, hnone⟩ :=
    get_retained_growth_main N r 10 0 0 (by omega) hup hmin
  refine ⟨?_, List.length_replicate N goodMsg, hnone⟩
  rw [get_retained, hgo]
  rfl

/-- C4 witness: `N = 35` needs `r = 2` retries (capacities 10, 20, 40). -/
theorem get_retained_growth_terminates_witness :
    (1 ≤ 35) ∧ (35 ≤ 10 * 2 ^ 2) ∧ (∀ j, j < 2 → 10 * 2 ^ j < 35)
    ∧ ((get_retained (hostC4 35) 3 [97] 10).map GetRetainedOutcome.result =
        some (.ok (List.replicate 35 goodMsg))
      ∧ (List.replicate 35 goodMsg).length = 35
      ∧ get_retained (hostC4 35) 2 [97] 10 = none) :=
  ⟨by decide, by decide, by decide,
    get_retained_growth_terminates 35 2 (by decide) (by decide) (by decide)⟩

/-- C5: on a successful query with found count `f` at capacity `c` and
`f ≤ c`, `get_retained` returns exactly the conversion of the first `f`
slots in buffer index order (`f` messages when they convert), frees all
`c` slot boxes, and the slots at index `f` and beyond are never
converted — the result only depends on `written.take f`, whatever the
remaining slots hold. -/
theorem get_retained_success_found_prefix (c f : Nat) (written : List RawMessage)
    (hlen : written.length = c) (hf : f ≤ c)
    (hconv : ∀ m ∈ written.take f, record_convertible m = true) :
    ∃ msgs, get_retained (hostOnce f written) 1 [97] c =
        some { result := .ok msgs, allocated := c, freed := c }
      ∧ convert_to_rust_type (written.take f) = .ok msgs
      ∧ msgs.length = f := by
  obtain ⟨msgs, hcv, hl⟩ := convert_all_convertible (written.take f) hconv
  have hslots : slots_after c written = written.map some := by
    unfold slots_after
    rw [List.take_of_length_le (le_of_eq hlen), hlen]
    simp
  have hrec := reclaim_into_box_map_some written c f (le_of_eq hlen.symm)
  have ht : (written.take c).take f = written.take f := by
    rw [List.take_of_length_le (le_of_eq hlen)]
  refine ⟨msgs, ?_, hcv, ?_⟩
  · rw [get_retained, get_retained_go]
    rw [if_neg (by rw [topic97_no0]; exact Bool.false_ne_true)]
    simp only [hostOnce, hslots]
    rw [if_pos trivial]
    simp only [hrec, ht, hcv]
    simp
  · rw [hl, List.length_take, hlen]
    exact min_eq_left hf

/-- C5 witness: capacity 10, found count 3, with the seven trailing
slots holding junk placeholders (null topic pointers): exactly the 3
populated records come back. -/
theorem get_retained_success_found_prefix_witness :
    (([goodRec, sampleRec, goodRec] ++ List.replicate 7 zeroRawMessage).length = 10)
    ∧ (3 ≤ 10)
    ∧ (∀ m ∈ ([goodRec, sampleRec, goodRec] ++ List.replicate 7 zeroRawMessage).take 3,
        record_convertible m = true)
    ∧ ∃ msgs, get_retained
          (hostOnce 3 ([goodRec, sampleRec, goodRec] ++ List.replicate 7 zeroRawMessage))
          1 [97] 10 =
        some { result := .ok msgs, allocated := 10, freed := 10 }
      ∧ convert_to_rust_type
          (([goodRec, sampleRec, goodRec] ++ List.replicate 7 zeroRawMessage).take 3) = .ok msgs
      ∧ msgs.length = 3 :=
  ⟨by decide, by decide, by decide,
    get_retained_success_found_prefix 10 3
      ([goodRec, sampleRec, goodRec] ++ List.replicate 7 zeroRawMessage)
      (by decide) (by decide) (by decide)⟩

/-- C6: a reclaimed record with a (non-null) topic buffer converts as
follows: if the topic bytes are not well-formed UTF-8, conversion fails
with the decoding error return (not a crash); if they are, the domain
message's topic, payload view (`payloadlen` bytes at the payload
pointer), qos and retain equal the record's fields exactly. -/
theorem convert_record_fields (m : RawMessage) (tb pv : List Nat)
    (ht : m.topic = some tb) (hp : payload_view m = some pv) :
    (validUtf8 tb = false →
      convert_to_rust_type [m] =
        .err "get_retained failed to create topic &str from CStr pointer")
    ∧ (validUtf8 tb = true →
      convert_to_rust_type [m] =
        .ok [{ topic := tb, payload := pv, qos := m.qos, retain := m.retain }]) := by
  constructor
  · intro hv
    simp only [convert_to_rust_type, ht, hv, Bool.false_eq_true, if_false]
  · intro hv
    simp only [convert_to_rust_type, ht, hv, if_true, hp]

/-- C6 witness: the spec's round-trip record (topic `"a/b"`, payload
`[1,2,3]`, qos 1, retain true) converts to the identical domain message;
and the same record with topic bytes `[255]` fails with the decoding
error, not a crash. -/
theorem convert_record_fields_witness :
    sampleRec.topic = some [97, 47, 98]
    ∧ payload_view sampleRec = some [1, 2, 3]
    ∧ convert_to_rust_type [sampleRec] =
        .ok [{ topic := [97, 47, 98], payload := [1, 2, 3], qos := 1, retain := true }]
    ∧ convert_to_rust_type [{ sampleRec with topic := some [255] }] =
        .err "get_retained failed to create topic &str from CStr pointer" :=
  ⟨rfl, rfl,
    (convert_record_fields sampleRec [97, 47, 98] [1, 2, 3] rfl rfl).2 rfl,
    (convert_record_fields { sampleRec with topic := some [255] } [255] [1, 2, 3]
      rfl rfl).1 rfl⟩

/-- C8 counterexample: the distinct unknown status codes 7 and 8
produce exactly the same publish result (`Err(Error::Unknown)`, a
payload-less variant) and the same `get_retained` outcome, so the
original integer code is not recoverable from the returned error: the
claim that the Unknown error carries the original code is false of the
code. -/
theorem unknown_code_dropped :
    (7 : Int) ≠ 8
    ∧ (publish_broadcast (fun _ => 7) [116] [1] QOS.AtMostOnce false).result
        = (publish_broadcast (fun _ => 8) [116] [1] QOS.AtMostOnce false).result
    ∧ (publish_broadcast (fun _ => 7) [116] [1] QOS.AtMostOnce false).result
        = .err Error.Unknown
    ∧ get_retained (fun _ => { rc := 7, found := 0, written := [] }) 1 [116] 10
        = get_retained (fun _ => { rc := 8, found := 0, written := [] }) 1 [116] 10 := by
  refine ⟨by decide, rfl, rfl, by decide⟩

/-- C8 amended: every host status code outside the recognized set maps
to the payload-less `Error::Unknown` in the publish operations and to
the fixed `"UNKNOWN ERROR"` text in `get_retained`; the original
integer code is dropped, not carried. -/
theorem unknown_code_translation (c : Int) (h0 : c ≠ 0) (h1 : c ≠ 1) (h2 : c ≠ 2)
    (h3 : c ≠ 3) (h32 : c ≠ 32) :
    (publish_broadcast (fun _ => c) [116] [1] QOS.AtMostOnce false).result
        = .err Error.Unknown
    ∧ get_retained (fun _ => { rc := c, found := 0, written := [] }) 1 [116] 10 =
        some { result := .err ("mosquitto_get_retained failed. return code from mosquitto: " ++
                 ("mosquitto_get_retained failed. return code from mosquitto: " ++
                   "UNKNOWN ERROR")),
               allocated := 10, freed := 10 } := by
  constructor
  · rw [publish_broadcast, if_neg (by decide)]
    simp only [if_neg h0, if_neg h1, if_neg h3]
  · rw [get_retained_error_attempt c 0 h0 h32]
    simp only [mosq_err_t_MOSQ_ERR_INVAL, mosq_err_t_MOSQ_ERR_NOMEM,
      mosq_err_t_MOSQ_ERR_PROTOCOL]
    rw [if_neg h3, if_neg h1, if_neg h2]

/-- C8 amended witness: concrete unknown code 99. -/
theorem unknown_code_translation_witness :
    ((99 : Int) ≠ 0) ∧ ((99 : Int) ≠ 1) ∧ ((99 : Int) ≠ 2) ∧ ((99 : Int) ≠ 3)
    ∧ ((99 : Int) ≠ 32)
    ∧ ((publish_broadcast (fun _ => 99) [116] [1] QOS.AtMostOnce false).result
        = .err Error.Unknown
      ∧ get_retained (fun _ => { rc := 99, found := 0, written := [] }) 1 [116] 10 =
        some { result := .err ("mosquitto_get_retained failed. return code from mosquitto: " ++
                 ("mosquitto_get_retained failed. return code from mosquitto: " ++
                   "UNKNOWN ERROR")),
               allocated := 10, freed := 10 }) :=
  ⟨by decide, by decide, by decide, by decide, by decide,
    unknown_code_translation 99 (by decide) (by decide) (by decide) (by decide) (by decide)⟩

/-- C9: status translation is total on `[0, 255]`.  For every such code
the publish marshaler's result is one of the four defined outcomes
(success, no-memory, invalid-argument, unknown) and never a panic; and
in `get_retained` the code is the success status, the buffer-full retry
signal, or the attempt returns an error built from one of the four
defined status names — again never a panic. -/
theorem status_translation_total (c : Int) (_hlo : 0 ≤ c) (_hhi : c ≤ 255) :
    ((publish_broadcast (fun _ => c) [116] [1] QOS.AtMostOnce false).result = .ok Success.mk
      ∨ (publish_broadcast (fun _ => c) [116] [1] QOS.AtMostOnce false).result = .err Error.NoMem
      ∨ (publish_broadcast (fun _ => c) [116] [1] QOS.AtMostOnce false).result = .err Error.Inval
      ∨ (publish_broadcast (fun _ => c) [116] [1] QOS.AtMostOnce false).result = .err Error.Unknown)
    ∧ (c = mosq_err_t_MOSQ_ERR_SUCCESS
      ∨ c = mosq_err_t_MOSQ_ERR_BUFFER_FULL
      ∨ ∃ s, (s = "MOSQ_ERR_INVAL" ∨ s = "MOSQ_ERR_NOMEM" ∨ s = "MOSQ_ERR_PROTOCOL"
            ∨ s = "UNKNOWN ERROR")
          ∧ get_retained (fun _ => { rc := c, found := 0, written := [] }) 1 [116] 10 =
              some { result := .err ("mosquitto_get_retained failed. return code from mosquitto: " ++
                       ("mosquitto_get_retained failed. return code from mosquitto: " ++ s)),
                     allocated := 10, freed := 10 }) := by
  have hres : (publish_broadcast (fun _ => c) [116] [1] QOS.AtMostOnce false).result =
      (if c = 0 then .ok Success.mk else if c = 1 then .err Error.NoMem
       else if c = 3 then .err Error.Inval else .err Error.Unknown) := by
    rw [publish_broadcast, if_neg (by decide)]
  constructor
  · by_cases hc0 : c = 0
    · left
      rw [hres, if_pos hc0]
    · by_cases hc1 : c = 1
      · right; left
        rw [hres, if_neg hc0, if_pos hc1]
      · by_cases hc3 : c = 3
        · right; right; left
          rw [hres, if_neg hc0, if_neg hc1, if_pos hc3]
        · right; right; right
          rw [hres, if_neg hc0, if_neg hc1, if_neg hc3]
  · by_cases hc0 : c = mosq_err_t_MOSQ_ERR_SUCCESS
    · exact Or.inl hc0
    · by_cases hc32 : c = mosq_err_t_MOSQ_ERR_BUFFER_FULL
      · exact Or.inr (Or.inl hc32)
      · refine Or.inr (Or.inr ⟨?_, ?_, ?_⟩)
        · exact (if c = mosq_err_t_MOSQ_ERR_INVAL then "MOSQ_ERR_INVAL"
            else if c = mosq_err_t_MOSQ_ERR_NOMEM then "MOSQ_ERR_NOMEM"
            else if c = mosq_err_t_MOSQ_ERR_PROTOCOL then "MOSQ_ERR_PROTOCOL"
            else "UNKNOWN ERROR")
        · by_cases hc3 : c = mosq_err_t_MOSQ_ERR_INVAL
          · left
            rw [if_pos hc3]
          · by_cases hc1 : c = mosq_err_t_MOSQ_ERR_NOMEM
            · right; left
              rw [if_neg hc3, if_pos hc1]
            · by_cases hc2 : c = mosq_err_t_MOSQ_ERR_PROTOCOL
              · right; right; left
                rw [if_neg hc3, if_neg hc1, if_pos hc2]
              · right; right; right
                rw [if_neg hc3, if_neg hc1, if_neg hc2]
        · exact get_retained_error_attempt c 0 hc0 hc32

/-- C9 witness: code 2 (`MOSQ_ERR_PROTOCOL`) — within `[0, 255]`, an
unknown code for the publish match, the protocol-error name in
`get_retained`. -/
theorem status_translation_total_witness :
    ((0 : Int) ≤ 2) ∧ ((2 : Int) ≤ 255)
    ∧ (((publish_broadcast (fun _ => 2) [116] [1] QOS.AtMostOnce false).result = .ok Success.mk
      ∨ (publish_broadcast (fun _ => 2) [116] [1] QOS.AtMostOnce false).result = .err Error.NoMem
      ∨ (publish_broadcast (fun _ => 2) [116] [1] QOS.AtMostOnce false).result = .err Error.Inval
      ∨ (publish_broadcast (fun _ => 2) [116] [1] QOS.AtMostOnce false).result = .err Error.Unknown)
    ∧ ((2 : Int) = mosq_err_t_MOSQ_ERR_SUCCESS
      ∨ (2 : Int) = mosq_err_t_MOSQ_ERR_BUFFER_FULL
      ∨ ∃ s, (s = "MOSQ_ERR_INVAL" ∨ s = "MOSQ_ERR_NOMEM" ∨ s = "MOSQ_ERR_PROTOCOL"
            ∨ s = "UNKNOWN ERROR")
          ∧ get_retained (fun _ => { rc := 2, found := 0, written := [] }) 1 [116] 10 =
              some { result := .err ("mosquitto_get_retained failed. return code from mosquitto: " ++
                       ("mosquitto_get_retained failed. return code from mosquitto: " ++ s)),
                     allocated := 10, freed := 10 })) :=
  ⟨by decide, by decide, status_translation_total 2 (by decide) (by decide)⟩
